import Mathlib

/-!
Verification of the vocalis-saas credit/billing front-end arithmetic.

Shallow embedding of the JavaScript components
`credit-calculator.js`, `auto-recharge.js` and `credit-display.js`.
JavaScript numbers are modelled as exact rationals (ℚ); a possibly-NaN
number is modelled as `Option ℚ` (`none` = NaN), matching the JS
comparison semantics in which every comparison with NaN is false.
Strings fed to `parseFloat` / `parseInt` are modelled as `List Char`.
-/

namespace CreditCalculator

/-- this.CREDIT_RATE = 0.00025 ($0.00025 per credit). -/
def CREDIT_RATE : ℚ := 25 / 100000

/-- this.MIN_AMOUNT = 5. -/
def MIN_AMOUNT : ℚ := 5

/-- this.MAX_AMOUNT = 1000. -/
def MAX_AMOUNT : ℚ := 1000

/-- dollarsToCredits(dollars) = Math.floor(dollars / this.CREDIT_RATE). -/
def dollarsToCredits (dollars : ℚ) : ℤ :=
  ⌊dollars / CREDIT_RATE⌋

/-- creditsToDollars(credits) = credits * this.CREDIT_RATE. -/
def creditsToDollars (credits : ℚ) : ℚ :=
  credits * CREDIT_RATE

/-- Return record of calculateVoiceBreakdown. -/
structure VoiceBreakdown where
  standardMinutes : ℤ
  premiumMinutes : ℤ
  perCreditCost : ℚ
deriving DecidableEq, Repr

/-- calculateVoiceBreakdown(credits). -/
def calculateVoiceBreakdown (credits : ℚ) : VoiceBreakdown :=
  { standardMinutes := ⌊credits / 1000⌋
    premiumMinutes := ⌊credits / 2000⌋
    perCreditCost := CREDIT_RATE }

/-- Return record of validateAmount: `message` is `some` of the error
text when invalid, `amount`/`credits` are present on the valid branch. -/
structure ValidationResult where
  isValid : Bool
  message : Option String
  amount : Option ℚ
  credits : Option ℤ
deriving DecidableEq, Repr

/-- validateAmount(amount).  The argument is the result of
`parseFloat(amount)`, with `none` standing for NaN. -/
def validateAmount (amount : Option ℚ) : ValidationResult :=
  match amount with
  | none =>
    { isValid := false, message := some "Please enter a valid number"
      amount := none, credits := none }
  | some numAmount =>
    if numAmount < MIN_AMOUNT then
      { isValid := false, message := some "Minimum amount is $5"
        amount := none, credits := none }
    else if numAmount > MAX_AMOUNT then
      { isValid := false, message := some "Maximum amount is $1000"
        amount := none, credits := none }
    else
      { isValid := true, message := none
        amount := some numAmount, credits := some (dollarsToCredits numAmount) }

/-- The character filter of `value.replace(/[^\d.]/g, '')`: keep digits
and dots, drop everything else. -/
def stripNonNumeric (s : List Char) : List Char :=
  s.filter (fun c => c.isDigit || c = '.')

/-- Decimal value of a digit list (most significant first). -/
def digitsToNat (ds : List Char) : ℕ :=
  ds.foldl (fun acc c => 10 * acc + (c.toNat - 48)) 0

/-- parseFloat on a string containing only digits and dots: an integer
part, optionally a dot and a fractional part; NaN (= `none`) when no
digit occurs before the parse stops. -/
def parseFloatDigits (s : List Char) : Option ℚ :=
  let intDigits := s.takeWhile Char.isDigit
  let rest := s.drop intDigits.length
  match rest with
  | '.' :: rest2 =>
    let fracDigits := rest2.takeWhile Char.isDigit
    if intDigits.isEmpty && fracDigits.isEmpty then none
    else some ((digitsToNat intDigits : ℚ) +
      (digitsToNat fracDigits : ℚ) / (10 ^ fracDigits.length))
  | _ =>
    if intDigits.isEmpty then none
    else some (digitsToNat intDigits : ℚ)

/-- parseDollarInput(value) = parseFloat(value.replace(/[^\d.]/g, '')). -/
def parseDollarInput (value : List Char) : Option ℚ :=
  parseFloatDigits (stripNonNumeric value)

end CreditCalculator

/-- C1: dollarsToCredits d is floor(d / 0.00025), equivalently
floor(4000 * d) (4000 credits per dollar), and creditsToDollars c is
c * 0.00025 = c / 4000; both are pure functions of their input (they
are plain functions of the argument in this embedding, with no state). -/
theorem c1_conversion_rates (d c : ℚ) :
    CreditCalculator.dollarsToCredits d = ⌊d / (25 / 100000)⌋ ∧
    CreditCalculator.dollarsToCredits d = ⌊4000 * d⌋ ∧
    CreditCalculator.creditsToDollars c = c * (25 / 100000) ∧
    CreditCalculator.creditsToDollars c = c / 4000 := by
  refine ⟨rfl, ?_, rfl, ?_⟩
  · unfold CreditCalculator.dollarsToCredits CreditCalculator.CREDIT_RATE
    have h : d / ((25 : ℚ) / 100000) = 4000 * d := by ring
    rw [h]
  · unfold CreditCalculator.creditsToDollars CreditCalculator.CREDIT_RATE
    ring

/-- C5: conversion round-trips within floor tolerance: credits → dollars
→ credits is the identity on whole credit counts, and dollars → credits
→ dollars under-approximates by strictly less than one credit's worth
(0.00025 dollars) for every d ≥ 0. -/
theorem c5_roundtrip :
    (∀ c : ℕ, CreditCalculator.dollarsToCredits
        (CreditCalculator.creditsToDollars (c : ℚ)) = (c : ℤ)) ∧
    (∀ d : ℚ, 0 ≤ d →
      CreditCalculator.creditsToDollars
        ((CreditCalculator.dollarsToCredits d : ℤ) : ℚ) ≤ d ∧
      d - CreditCalculator.creditsToDollars
        ((CreditCalculator.dollarsToCredits d : ℤ) : ℚ) < 25 / 100000) := by
  constructor
  · intro c
    unfold CreditCalculator.dollarsToCredits CreditCalculator.creditsToDollars
      CreditCalculator.CREDIT_RATE
    norm_num
  · intro d _
    unfold CreditCalculator.dollarsToCredits CreditCalculator.creditsToDollars
      CreditCalculator.CREDIT_RATE
    have hrate : (0 : ℚ) < 25 / 100000 := by norm_num
    constructor
    · have h := Int.floor_le (d / (25 / 100000))
      calc ((⌊d / (25 / 100000)⌋ : ℚ)) * (25 / 100000)
          ≤ (d / (25 / 100000)) * (25 / 100000) := by
            exact mul_le_mul_of_nonneg_right h (le_of_lt hrate)
        _ = d := by field_simp
    · have h := Int.lt_floor_add_one (d / (25 / 100000))
      have h2 : d / (25 / 100000) * (25 / 100000) <
          ((⌊d / (25 / 100000)⌋ : ℚ) + 1) * (25 / 100000) :=
        mul_lt_mul_of_pos_right h hrate
      have h3 : d < (⌊d / (25 / 100000)⌋ : ℚ) * (25 / 100000) + 25 / 100000 := by
        have hd : d / (25 / 100000) * (25 / 100000) = d := by field_simp
        rw [hd] at h2
        linarith [h2]
      linarith

/-- Witness for c5_roundtrip at c = 3 and d = 7. -/
theorem c5_roundtrip_witness :
    CreditCalculator.dollarsToCredits
      (CreditCalculator.creditsToDollars ((3 : ℕ) : ℚ)) = ((3 : ℕ) : ℤ) ∧
    CreditCalculator.creditsToDollars
      ((CreditCalculator.dollarsToCredits 7 : ℤ) : ℚ) ≤ 7 :=
  ⟨c5_roundtrip.1 3, (c5_roundtrip.2 7 (by norm_num)).1⟩

/-- C6: for every credit total c ≥ 0, calculateVoiceBreakdown returns
floor(c/1000) standard minutes, floor(c/2000) premium minutes, and a
per-credit cost of 0.00025. -/
theorem c6_voice_breakdown (c : ℚ) (_hc : 0 ≤ c) :
    CreditCalculator.calculateVoiceBreakdown c =
      { standardMinutes := ⌊c / 1000⌋
        premiumMinutes := ⌊c / 2000⌋
        perCreditCost := 25 / 100000 } := by
  unfold CreditCalculator.calculateVoiceBreakdown CreditCalculator.CREDIT_RATE
  rfl

/-- Witness for c6_voice_breakdown at c = 5000. -/
theorem c6_voice_breakdown_witness :
    CreditCalculator.calculateVoiceBreakdown 5000 =
      { standardMinutes := ⌊(5000 : ℚ) / 1000⌋
        premiumMinutes := ⌊(5000 : ℚ) / 2000⌋
        perCreditCost := 25 / 100000 } :=
  c6_voice_breakdown 5000 (by norm_num)

/-- C2 counterexample: the calculator does not clamp: at input 2 (below
the minimum 5) validateAmount refuses the amount (isValid = false,
amount absent) instead of mapping it to the boundary 5. -/
theorem c2_no_clamping_counterexample :
    (CreditCalculator.validateAmount (some 2)).isValid = false ∧
    (CreditCalculator.validateAmount (some 2)).amount = none ∧
    (CreditCalculator.validateAmount (some 2)).amount ≠ some 5 := by
  have h : CreditCalculator.validateAmount (some 2) =
      { isValid := false, message := some "Minimum amount is $5"
        amount := none, credits := none } := by
    norm_num [CreditCalculator.validateAmount, CreditCalculator.MIN_AMOUNT]
  rw [h]
  exact ⟨rfl, rfl, by simp⟩

/-- C2 amended: validateAmount keeps every accepted amount inside
[5, 1000] (returning it unchanged, never moved to a boundary), and
refuses out-of-range inputs with isValid = false rather than clamping
them. -/
theorem c2_range_validation (a : Option ℚ) :
    ((CreditCalculator.validateAmount a).isValid = true →
      ∃ q, a = some q ∧ 5 ≤ q ∧ q ≤ 1000 ∧
        (CreditCalculator.validateAmount a).amount = some q) ∧
    (∀ q, a = some q → (q < 5 ∨ 1000 < q) →
      (CreditCalculator.validateAmount a).isValid = false) := by
  constructor
  · intro hvalid
    match a with
    | none => simp [CreditCalculator.validateAmount] at hvalid
    | some q =>
      refine ⟨q, rfl, ?_⟩
      by_cases h1 : q < CreditCalculator.MIN_AMOUNT
      · simp [CreditCalculator.validateAmount, h1] at hvalid
      · by_cases h2 : q > CreditCalculator.MAX_AMOUNT
        · simp [CreditCalculator.validateAmount, h1, h2] at hvalid
        · refine ⟨?_, ?_, ?_⟩
          · exact not_lt.mp h1
          · exact not_lt.mp h2
          · simp [CreditCalculator.validateAmount, h1, h2]
  · intro q ha hout
    subst ha
    rcases hout with h | h
    · simp [CreditCalculator.validateAmount, CreditCalculator.MIN_AMOUNT, h]
    · by_cases h1 : q < CreditCalculator.MIN_AMOUNT
      · simp [CreditCalculator.validateAmount, h1]
      · simp [CreditCalculator.validateAmount, h1,
          CreditCalculator.MAX_AMOUNT, h]

/-- Witness for c2_range_validation at input 7 (valid branch) and at
input 2000 (rejection branch). -/
theorem c2_range_validation_witness :
    (∃ q, (some (7 : ℚ)) = some q ∧ 5 ≤ q ∧ q ≤ 1000 ∧
      (CreditCalculator.validateAmount (some 7)).amount = some q) ∧
    (CreditCalculator.validateAmount (some 2000)).isValid = false :=
  ⟨(c2_range_validation (some 7)).1 (by
      norm_num [CreditCalculator.validateAmount, CreditCalculator.MIN_AMOUNT,
        CreditCalculator.MAX_AMOUNT]),
    (c2_range_validation (some 2000)).2 2000 rfl (by norm_num)⟩

/-- C3: validateAmount rejects exactly the non-numbers and the amounts
outside [5, 1000]; each rejection carries a message, and each accepted
amount a is returned with amount = a and credits = dollarsToCredits a. -/
theorem c3_validate_amount (a : Option ℚ) :
    ((CreditCalculator.validateAmount a).isValid = false ↔
      (a = none ∨ ∃ q, a = some q ∧ (q < 5 ∨ 1000 < q))) ∧
    ((CreditCalculator.validateAmount a).isValid = false →
      (CreditCalculator.validateAmount a).message ≠ none) ∧
    (∀ q, a = some q → 5 ≤ q → q ≤ 1000 →
      (CreditCalculator.validateAmount a).amount = some q ∧
      (CreditCalculator.validateAmount a).credits =
        some (CreditCalculator.dollarsToCredits q)) := by
  refine ⟨?_, ?_, ?_⟩
  · match a with
    | none => simp [CreditCalculator.validateAmount]
    | some q =>
      by_cases h1 : q < CreditCalculator.MIN_AMOUNT
      · simp only [CreditCalculator.validateAmount, h1, if_true]
        simp [CreditCalculator.MIN_AMOUNT] at h1
        simp [h1]
      · by_cases h2 : q > CreditCalculator.MAX_AMOUNT
        · simp only [CreditCalculator.validateAmount, h1, if_false, h2, if_true]
          simp [CreditCalculator.MAX_AMOUNT] at h2
          simp [h2]
        · simp only [CreditCalculator.validateAmount, h1, if_false, h2]
          simp [CreditCalculator.MIN_AMOUNT] at h1
          simp [CreditCalculator.MAX_AMOUNT] at h2
          simp
          exact ⟨h1, h2⟩
  · intro hinvalid
    match a with
    | none => simp [CreditCalculator.validateAmount]
    | some q =>
      by_cases h1 : q < CreditCalculator.MIN_AMOUNT
      · simp [CreditCalculator.validateAmount, h1]
      · by_cases h2 : q > CreditCalculator.MAX_AMOUNT
        · simp [CreditCalculator.validateAmount, h1, h2]
        · simp [CreditCalculator.validateAmount, h1, h2] at hinvalid
  · intro q ha h5 h1000
    subst ha
    have h1 : ¬ q < CreditCalculator.MIN_AMOUNT := by
      simp [CreditCalculator.MIN_AMOUNT]; linarith
    have h2 : ¬ q > CreditCalculator.MAX_AMOUNT := by
      simp [CreditCalculator.MAX_AMOUNT]; linarith
    simp [CreditCalculator.validateAmount, h1, h2]

/-- Witness for c3_validate_amount at input 10. -/
theorem c3_validate_amount_witness :
    (CreditCalculator.validateAmount (some 10)).amount = some 10 ∧
    (CreditCalculator.validateAmount (some 10)).credits =
      some (CreditCalculator.dollarsToCredits 10) :=
  (c3_validate_amount (some 10)).2.2 10 rfl (by norm_num) (by norm_num)

/-! JavaScript number helpers shared by the components: `Option ℚ` is a
possibly-NaN number; every comparison involving NaN is false. -/

/-- JS `a < b` (false when either side is NaN). -/
def jsLtQ : Option ℚ → Option ℚ → Bool
  | some a, some b => decide (a < b)
  | _, _ => false

/-- JS `a > b` (false when either side is NaN). -/
def jsGtQ : Option ℚ → Option ℚ → Bool
  | some a, some b => decide (b < a)
  | _, _ => false

/-- JS `a >= b` (false when either side is NaN). -/
def jsGeQ : Option ℚ → Option ℚ → Bool
  | some a, some b => decide (b ≤ a)
  | _, _ => false

/-- JS `a * b` (NaN-propagating). -/
def jsMulQ : Option ℚ → Option ℚ → Option ℚ
  | some a, some b => some (a * b)
  | _, _ => none

/-- JS truthiness of a number: false for NaN and 0. -/
def jsTruthy : Option ℚ → Bool
  | some a => decide (a ≠ 0)
  | none => false

/-- JS `parseInt(s)`: optional leading minus sign, then leading digits;
NaN (= `none`) when no digit is found. -/
def parseIntJS (s : List Char) : Option ℤ :=
  match s with
  | '-' :: rest =>
    let ds := rest.takeWhile Char.isDigit
    if ds.isEmpty then none else some (-(CreditCalculator.digitsToNat ds : ℤ))
  | _ =>
    let ds := s.takeWhile Char.isDigit
    if ds.isEmpty then none else some ((CreditCalculator.digitsToNat ds : ℤ))

/-- JS `Number.prototype.toString` on a floor result: "NaN" for NaN,
the decimal digits otherwise. -/
def jsIntToString : Option ℤ → String
  | none => "NaN"
  | some z => toString z

/-- Decimal rendering with two fractional digits (half-up rounding). -/
def fixed2Digits (q : ℚ) : String :=
  let n : ℤ := ⌊q * 100 + 1 / 2⌋
  let fp := (n % 100).toNat
  toString (n / 100) ++ "." ++ (if fp < 10 then "0" ++ toString fp else toString fp)

/-- JS `toFixed(2)`: "NaN" for NaN, two-decimal rendering otherwise. -/
def jsToFixed2 : Option ℚ → String
  | none => "NaN"
  | some q => if q < 0 then "-" ++ fixed2Digits (-q) else fixed2Digits q

namespace AutoRechargeManager

/-- this.METRONOME_MIN_AMOUNT = 0. -/
def METRONOME_MIN_AMOUNT : ℚ := 0

/-- this.selectedRechargeAmount: stored as strings in the source
(`credits.toString()` / `numValue.toFixed(2)`). -/
structure RechargeAmount where
  credits : String
  price : String
deriving DecidableEq, Repr

/-- The fields of the manager the validation logic reads or writes. -/
structure State where
  enabled : Bool
  selectedThreshold : String
  selectedRechargeAmount : RechargeAmount
deriving DecidableEq, Repr

/-- Constructor state: enabled = false, threshold '25000',
recharge amount credits '200000' / price '50.00'. -/
def initialState : State :=
  { enabled := false
    selectedThreshold := "25000"
    selectedRechargeAmount := { credits := "200000", price := "50.00" } }

/-- this.calculator.creditsToDollars on a parseInt result. -/
def creditsToDollarsJS (credits : Option ℤ) : Option ℚ :=
  match credits with
  | none => none
  | some c => some (CreditCalculator.creditsToDollars (c : ℚ))

/-- this.calculator.dollarsToCredits on a parseFloat result. -/
def dollarsToCreditsJS (dollars : Option ℚ) : Option ℤ :=
  dollars.map CreditCalculator.dollarsToCredits

/-- Which warning message validateConfiguration shows. -/
inductive Warning
  | belowMinimum
  | thresholdClose
deriving DecidableEq, Repr

/-- validateConfiguration outcome: the returned boolean and the state of
the warning element after the call (`none` = hidden). -/
structure ValidateResult where
  result : Bool
  warning : Option Warning
deriving DecidableEq, Repr

/-- validateConfiguration(purchaseAmount = null).  The below-minimum
branch shows a warning and returns false; the threshold-close branch
(`purchaseAmount && thresholdDollars >= purchaseAmount * 0.85`) shows a
warning but still returns true; otherwise the warning is hidden and the
result is true. -/
def validateConfiguration (st : State) (purchaseAmount : Option ℚ) :
    ValidateResult :=
  if st.enabled = false then { result := true, warning := none }
  else
    let thresholdCredits := parseIntJS st.selectedThreshold.data
    let rechargeCredits := parseIntJS st.selectedRechargeAmount.credits.data
    let thresholdDollars := creditsToDollarsJS thresholdCredits
    let rechargeDollars := creditsToDollarsJS rechargeCredits
    if jsLtQ rechargeDollars (some METRONOME_MIN_AMOUNT) then
      { result := false, warning := some Warning.belowMinimum }
    else if jsTruthy purchaseAmount &&
        jsGeQ thresholdDollars (jsMulQ purchaseAmount (some (85 / 100))) then
      { result := true, warning := some Warning.thresholdClose }
    else
      { result := true, warning := none }

/-- updateRechargeAmount outcome: the manager state afterwards, and
whether the input was rejected by one of the two range guards (early
return with an error border). -/
structure UpdateOutcome where
  state : State
  rejected : Bool
deriving DecidableEq, Repr

/-- updateRechargeAmount(value): parse the dollar input, reject below
METRONOME_MIN_AMOUNT or above 1000, otherwise store the credits string
and the two-decimal price. -/
def updateRechargeAmount (st : State) (value : List Char) : UpdateOutcome :=
  let numValue := CreditCalculator.parseDollarInput value
  if jsLtQ numValue (some METRONOME_MIN_AMOUNT) then
    { state := st, rejected := true }
  else if jsGtQ numValue (some 1000) then
    { state := st, rejected := true }
  else
    { state := { st with selectedRechargeAmount :=
        { credits := jsIntToString (dollarsToCreditsJS numValue)
          price := jsToFixed2 numValue } }
      rejected := false }

end AutoRechargeManager

/-- C4: for an enabled configuration whose recharge dollar value meets
METRONOME_MIN_AMOUNT (with parseInt succeeding on both stored strings)
and a provided purchase amount p > 0, validateConfiguration shows the
advisory threshold warning exactly when thresholdDollars ≥ 0.85 * p,
and in every such case it still returns true (the warning is advisory
only). -/
theorem c4_advisory_warning (st : AutoRechargeManager.State) (p : ℚ)
    (tc rc : ℤ)
    (hen : st.enabled = true)
    (hth : parseIntJS st.selectedThreshold.data = some tc)
    (hrc : parseIntJS st.selectedRechargeAmount.credits.data = some rc)
    (hmin : AutoRechargeManager.METRONOME_MIN_AMOUNT ≤
      CreditCalculator.creditsToDollars (rc : ℚ))
    (hp : 0 < p) :
    (AutoRechargeManager.validateConfiguration st (some p)).result = true ∧
    ((AutoRechargeManager.validateConfiguration st (some p)).warning =
        some AutoRechargeManager.Warning.thresholdClose ↔
      p * (85 / 100) ≤ CreditCalculator.creditsToDollars (tc : ℚ)) := by
  unfold AutoRechargeManager.validateConfiguration
  rw [hen]
  simp only [AutoRechargeManager.creditsToDollarsJS, hth, hrc, Option.map_some]
  have hlt : jsLtQ (some (CreditCalculator.creditsToDollars (rc : ℚ)))
      (some AutoRechargeManager.METRONOME_MIN_AMOUNT) = false := by
    simp [jsLtQ, not_lt.mpr hmin]
  have htruthy : jsTruthy (some p) = true := by
    simp [jsTruthy]
    linarith
  rw [hlt]
  simp only [Bool.false_eq_true, if_false, jsMulQ, htruthy, Bool.true_and]
  by_cases hge : p * (85 / 100) ≤ CreditCalculator.creditsToDollars (tc : ℚ)
  · have : jsGeQ (some (CreditCalculator.creditsToDollars (tc : ℚ)))
        (some (p * (85 / 100))) = true := by simp [jsGeQ, hge]
    rw [this]
    simp [hge]
  · have : jsGeQ (some (CreditCalculator.creditsToDollars (tc : ℚ)))
        (some (p * (85 / 100))) = false := by simp [jsGeQ, hge]
    rw [this]
    simp [hge]

/-- Witness for c4_advisory_warning: the initial configuration with
enabled switched on (threshold 25000 credits = $6.25, recharge 200000
credits = $50) and purchase amount p = 7: the threshold ($6.25) is at
least 0.85 * 7 = $5.95, so the advisory warning shows and the result is
still true. -/
theorem c4_advisory_warning_witness :
    (AutoRechargeManager.validateConfiguration
      { AutoRechargeManager.initialState with enabled := true }
      (some 7)).result = true ∧
    ((AutoRechargeManager.validateConfiguration
      { AutoRechargeManager.initialState with enabled := true }
      (some 7)).warning = some AutoRechargeManager.Warning.thresholdClose ↔
      (7 : ℚ) * (85 / 100) ≤ CreditCalculator.creditsToDollars ((25000 : ℤ) : ℚ)) :=
  c4_advisory_warning
    { AutoRechargeManager.initialState with enabled := true } 7 25000 200000
    rfl rfl rfl
    (by norm_num [AutoRechargeManager.METRONOME_MIN_AMOUNT,
      CreditCalculator.creditsToDollars, CreditCalculator.CREDIT_RATE])
    (by norm_num)

/-- C9: METRONOME_MIN_AMOUNT is 0, so the hard-blocking below-minimum
branch of validateConfiguration is unreachable whenever the recharge
dollar value is non-negative: for every state (enabled or not) and every
purchase amount, validateConfiguration returns true. -/
theorem c9_never_blocks :
    AutoRechargeManager.METRONOME_MIN_AMOUNT = 0 ∧
    ∀ (st : AutoRechargeManager.State) (pa : Option ℚ) (rc : ℤ),
      parseIntJS st.selectedRechargeAmount.credits.data = some rc →
      0 ≤ CreditCalculator.creditsToDollars (rc : ℚ) →
      (AutoRechargeManager.validateConfiguration st pa).result = true := by
  refine ⟨rfl, ?_⟩
  intro st pa rc hrc hnn
  unfold AutoRechargeManager.validateConfiguration
  by_cases hen : st.enabled = false
  · rw [hen]; rfl
  · simp only [hen, if_false]
    simp only [AutoRechargeManager.creditsToDollarsJS, hrc, Option.map_some]
    have hlt : jsLtQ (some (CreditCalculator.creditsToDollars (rc : ℚ)))
        (some AutoRechargeManager.METRONOME_MIN_AMOUNT) = false := by
      simp [jsLtQ, AutoRechargeManager.METRONOME_MIN_AMOUNT, not_lt.mpr hnn]
    rw [hlt]
    simp only [Bool.false_eq_true, if_false]
    split
    · rfl
    · split <;> rfl

/-- Witness for c9_never_blocks: the enabled initial configuration
(recharge credits string '200000', i.e. $50 ≥ 0) passes for a purchase
amount of 3. -/
theorem c9_never_blocks_witness :
    (AutoRechargeManager.validateConfiguration
      { AutoRechargeManager.initialState with enabled := true }
      (some 3)).result = true :=
  c9_never_blocks.2
    { AutoRechargeManager.initialState with enabled := true }
    (some 3) 200000 rfl
    (by norm_num [CreditCalculator.creditsToDollars,
      CreditCalculator.CREDIT_RATE])

/-- On a list of dots, takeWhile isDigit stops immediately. -/
theorem takeWhile_digit_of_dots (l : List Char) (h : ∀ c ∈ l, c = '.') :
    l.takeWhile Char.isDigit = [] := by
  cases l with
  | nil => rfl
  | cons c t =>
    have hc : c = '.' := h c (List.mem_cons_self c t)
    subst hc
    have hdot : ('.' : Char).isDigit = false := rfl
    simp [List.takeWhile_cons, hdot]

/-- parseFloat of a string made only of dots is NaN. -/
theorem parseFloatDigits_dots (l : List Char) (h : ∀ c ∈ l, c = '.') :
    CreditCalculator.parseFloatDigits l = none := by
  unfold CreditCalculator.parseFloatDigits
  rw [takeWhile_digit_of_dots l h]
  cases l with
  | nil => rfl
  | cons c t =>
    have hc : c = '.' := h c (List.mem_cons_self c t)
    subst hc
    have ht : t.takeWhile Char.isDigit = [] :=
      takeWhile_digit_of_dots t (fun c hc2 => h c (List.mem_cons_of_mem _ hc2))
    simp [ht]

/-- After the digit/dot filter, a digit-free string is dots only. -/
theorem stripNonNumeric_no_digits (s : List Char)
    (h : ∀ c ∈ s, c.isDigit = false) :
    ∀ c ∈ CreditCalculator.stripNonNumeric s, c = '.' := by
  intro c hc
  unfold CreditCalculator.stripNonNumeric at hc
  rw [List.mem_filter] at hc
  obtain ⟨hmem, hcond⟩ := hc
  have hnd := h c hmem
  simp only [Bool.or_eq_true, decide_eq_true_eq] at hcond
  rcases hcond with hd | hdot
  · rw [hnd] at hd; exact absurd hd (by simp)
  · exact hdot

/-- C10: for every input string containing no digit, parseDollarInput
returns NaN, and updateRechargeAmount on such input passes both range
guards (NaN < min and NaN > 1000 are both false, so it is not rejected)
and stores selectedRechargeAmount with credits equal to the string
"NaN". -/
theorem c10_nan_stored (s : List Char)
    (h : ∀ c ∈ s, c.isDigit = false) :
    CreditCalculator.parseDollarInput s = none ∧
    ∀ st : AutoRechargeManager.State,
      (AutoRechargeManager.updateRechargeAmount st s).rejected = false ∧
      (AutoRechargeManager.updateRechargeAmount st
        s).state.selectedRechargeAmount.credits = "NaN" := by
  have hparse : CreditCalculator.parseDollarInput s = none := by
    unfold CreditCalculator.parseDollarInput
    exact parseFloatDigits_dots _ (stripNonNumeric_no_digits s h)
  refine ⟨hparse, ?_⟩
  intro st
  unfold AutoRechargeManager.updateRechargeAmount
  rw [hparse]
  exact ⟨rfl, rfl⟩

/-- Witness for c10_nan_stored on the digit-free input "abc" from the
constructor state. -/
theorem c10_nan_stored_witness :
    CreditCalculator.parseDollarInput ['a', 'b', 'c'] = none ∧
    (AutoRechargeManager.updateRechargeAmount AutoRechargeManager.initialState
      ['a', 'b', 'c']).state.selectedRechargeAmount.credits = "NaN" :=
  ⟨(c10_nan_stored ['a', 'b', 'c'] (by decide)).1,
    ((c10_nan_stored ['a', 'b', 'c'] (by decide)).2
      AutoRechargeManager.initialState).2⟩

namespace CreditDisplayManager

/-- this.CREDIT_RATE = 0.00025. -/
def CREDIT_RATE : ℚ := 25 / 100000

/-- The displayed balance numbers (the DOM text contents, modelled
numerically) and the recorded data source. -/
structure DisplayState where
  creditsBalance : ℚ
  balanceValue : ℚ
  totalPurchased : ℚ
  totalUsed : ℚ
  remainingBalance : ℚ
  source : String
deriving DecidableEq, Repr

/-- updateCreditsDisplay(remaining, purchased, used, source): overwrite
every displayed field; the dollar value is remaining * CREDIT_RATE. -/
def updateCreditsDisplay (remaining purchased used : ℚ) (source : String) :
    DisplayState :=
  { creditsBalance := remaining
    balanceValue := remaining * CREDIT_RATE
    totalPurchased := purchased
    totalUsed := used
    remainingBalance := remaining
    source := source }

/-- The sessionStorage fields loadDemoBalance reads: the `credits` field
of vocalis_purchase and the `credits_balance` field of vocalis_billing
(`none` when the key or the field is absent). -/
structure SessionData where
  purchaseCredits : Option ℚ
  billingCredits : Option ℚ
deriving DecidableEq, Repr

/-- JS `x && x > 0` on an optional numeric field. -/
def fieldPositive : Option ℚ → Bool
  | some c => decide (c ≠ 0) && decide (0 < c)
  | none => false

/-- The demo credit total: cached purchase credits, else cached billing
credits, else the hardcoded default 80000. -/
def demoCredits (sess : SessionData) : ℚ :=
  if fieldPositive sess.purchaseCredits then sess.purchaseCredits.getD 0
  else if fieldPositive sess.billingCredits then sess.billingCredits.getD 0
  else 80000

/-- loadDemoBalance(): display the demo credits as both remaining and
purchased, with used = 0, from source 'demo'. -/
def loadDemoBalance (sess : SessionData) : DisplayState :=
  updateCreditsDisplay (demoCredits sess) (demoCredits sess) 0 "demo"

/-- Parsed body of the balance endpoint response (fields may be
absent). -/
structure BalanceData where
  balance : Option ℚ
  dollar_value : Option ℚ
  source : Option String
deriving DecidableEq, Repr

/-- One round-trip of the balance fetch: the parsed ok-response, or a
failure (a non-ok status throws, so it lands in the same catch block as
a network error). -/
inductive FetchOutcome
  | success (data : BalanceData)
  | failure
deriving DecidableEq, Repr

/-- JS `x || d` on an optional numeric field (absent or 0 falls back). -/
def jsOrNum : Option ℚ → ℚ → ℚ
  | some x, d => if x = 0 then d else x
  | none, d => d

/-- JS `x || d` on an optional string field (absent or empty falls
back). -/
def jsOrStr : Option String → String → String
  | some x, d => if x = "" then d else x
  | none, d => d

/-- The toast notifications loadRealBalance can emit. -/
inductive Toast
  | infoRealBalance
  | warningSourceBalance
  | warningDemoFallback
deriving DecidableEq, Repr

/-- loadRealBalance outcome: the resulting display and the toast shown
(`none` = no toast).  The embedding consumes exactly one fetch outcome:
the method never retries the request. -/
structure LoadOutcome where
  display : DisplayState
  toast : Option Toast
  isLoaded : Bool
deriving DecidableEq, Repr

/-- loadRealBalance(): no stored customer id (absent or empty string,
both falsy) → demo fallback with no toast; failed fetch → demo fallback
plus a warning toast; successful fetch → display the response balance,
with an info toast when the source is 'metronome_api' and a warning
toast for any other source. -/
def loadRealBalance (customerId : Option String) (fetch : FetchOutcome)
    (sess : SessionData) : LoadOutcome :=
  match customerId with
  | none => { display := loadDemoBalance sess, toast := none, isLoaded := true }
  | some cid =>
    if cid = "" then
      { display := loadDemoBalance sess, toast := none, isLoaded := true }
    else
      match fetch with
      | FetchOutcome.failure =>
        { display := loadDemoBalance sess
          toast := some Toast.warningDemoFallback
          isLoaded := true }
      | FetchOutcome.success data =>
        let balance := jsOrNum data.balance 0
        let source := jsOrStr data.source "api"
        { display := updateCreditsDisplay balance balance 0 source
          toast := if source = "metronome_api" then some Toast.infoRealBalance
            else some Toast.warningSourceBalance
          isLoaded := true }

/-- A server-sent event as consumed by handleRealTimeEvent: the type
tag and the fields the handler reads. -/
structure RTEvent where
  type : String
  new_balance : ℚ
  auto_recharge : Bool
deriving DecidableEq, Repr

/-- The notifications handleRealTimeEvent can emit. -/
inductive Note
  | successAutoRecharge
  | infoBalanceUpdated
  | successRechargeComplete
  | errorRechargeFailed
deriving DecidableEq, Repr

/-- handleRealTimeEvent outcome: the display afterwards, the
notification shown, and whether a delayed loadRealBalance refresh was
scheduled. -/
structure HandleOutcome where
  display : DisplayState
  note : Option Note
  scheduledRefresh : Bool
deriving DecidableEq, Repr

/-- handleRealTimeEvent(data): switch on data.type over the five known
tags; only 'balance_updated' writes the displayed numbers (from
new_balance, via updateCreditsDisplay); 'auto_recharge_complete'
notifies and schedules a delayed refresh; 'connected', 'ping' and any
unknown tag only log. -/
def handleRealTimeEvent (st : DisplayState) (ev : RTEvent) : HandleOutcome :=
  if ev.type = "connected" then
    { display := st, note := none, scheduledRefresh := false }
  else if ev.type = "balance_updated" then
    { display := updateCreditsDisplay ev.new_balance ev.new_balance 0
        "real_time_update"
      note := some (if ev.auto_recharge then Note.successAutoRecharge
        else Note.infoBalanceUpdated)
      scheduledRefresh := false }
  else if ev.type = "auto_recharge_complete" then
    { display := st, note := some Note.successRechargeComplete
      scheduledRefresh := true }
  else if ev.type = "auto_recharge_failed" then
    { display := st, note := some Note.errorRechargeFailed
      scheduledRefresh := false }
  else if ev.type = "ping" then
    { display := st, note := none, scheduledRefresh := false }
  else
    { display := st, note := none, scheduledRefresh := false }

end CreditDisplayManager

/-- C7 counterexample: with no stored customer id and an empty session
cache, loadRealBalance falls back to the hardcoded default 80000 but
shows no toast at all, contradicting the claim that the error is
surfaced as a transient toast warning in this case too. -/
theorem c7_silent_fallback_counterexample :
    (CreditDisplayManager.loadRealBalance none
      CreditDisplayManager.FetchOutcome.failure
      { purchaseCredits := none, billingCredits := none }).toast = none ∧
    (CreditDisplayManager.loadRealBalance none
      CreditDisplayManager.FetchOutcome.failure
      { purchaseCredits := none, billingCredits := none
        }).display.creditsBalance = 80000 :=
  ⟨rfl, rfl⟩

/-- C7 amended: loadRealBalance recovers from a missing customer id or
a failed fetch only by falling back to the session-cached credits (or
the hardcoded default 80000 when the cache is empty), consuming a
single fetch outcome (no retry); the transient warning toast is shown
on a failed fetch, while the missing-customer-id fallback is silent. -/
theorem c7_error_fallback :
    (∀ (fetch : CreditDisplayManager.FetchOutcome)
        (sess : CreditDisplayManager.SessionData),
      CreditDisplayManager.loadRealBalance none fetch sess =
        { display := CreditDisplayManager.loadDemoBalance sess
          toast := none, isLoaded := true }) ∧
    (∀ (cid : String) (sess : CreditDisplayManager.SessionData), cid ≠ "" →
      CreditDisplayManager.loadRealBalance (some cid)
          CreditDisplayManager.FetchOutcome.failure sess =
        { display := CreditDisplayManager.loadDemoBalance sess
          toast := some CreditDisplayManager.Toast.warningDemoFallback
          isLoaded := true }) ∧
    (∀ sess : CreditDisplayManager.SessionData,
      sess.purchaseCredits = none → sess.billingCredits = none →
      CreditDisplayManager.loadDemoBalance sess =
        CreditDisplayManager.updateCreditsDisplay 80000 80000 0 "demo") := by
  refine ⟨fun fetch sess => rfl, ?_, ?_⟩
  · intro cid sess hcid
    simp [CreditDisplayManager.loadRealBalance, hcid]
  · intro sess hp hb
    unfold CreditDisplayManager.loadDemoBalance CreditDisplayManager.demoCredits
    rw [hp, hb]
    rfl

/-- Witness for c7_error_fallback: customer id 'cus_1' with a failed
fetch over an empty session cache falls back with the warning toast. -/
theorem c7_error_fallback_witness :
    CreditDisplayManager.loadRealBalance (some "cus_1")
        CreditDisplayManager.FetchOutcome.failure
        { purchaseCredits := none, billingCredits := none } =
      { display := CreditDisplayManager.loadDemoBalance
          { purchaseCredits := none, billingCredits := none }
        toast := some CreditDisplayManager.Toast.warningDemoFallback
        isLoaded := true } ∧
    CreditDisplayManager.loadDemoBalance
        { purchaseCredits := none, billingCredits := none } =
      CreditDisplayManager.updateCreditsDisplay 80000 80000 0 "demo" :=
  ⟨c7_error_fallback.2.1 "cus_1"
      { purchaseCredits := none, billingCredits := none } (by decide),
    c7_error_fallback.2.2
      { purchaseCredits := none, billingCredits := none } rfl rfl⟩

/-- C8: handleRealTimeEvent changes the displayed balance numbers
directly only for the 'balance_updated' tag, where it sets them from
the event's new_balance; for 'connected', 'auto_recharge_complete',
'auto_recharge_failed', 'ping' and every unknown tag the displayed
fields are left unchanged. -/
theorem c8_display_frame (st : CreditDisplayManager.DisplayState)
    (ev : CreditDisplayManager.RTEvent) :
    (CreditDisplayManager.handleRealTimeEvent st ev).display =
      if ev.type = "balance_updated" then
        CreditDisplayManager.updateCreditsDisplay ev.new_balance
          ev.new_balance 0 "real_time_update"
      else st := by
  unfold CreditDisplayManager.handleRealTimeEvent
  by_cases h2 : ev.type = "balance_updated"
  · have h1 : ¬ ev.type = "connected" := by rw [h2]; decide
    rw [if_neg h1, if_pos h2, if_pos h2]
  · rw [if_neg h2]
    rw [if_neg h2]
    by_cases h1 : ev.type = "connected"
    · rw [if_pos h1]
    · rw [if_neg h1]
      by_cases h3 : ev.type = "auto_recharge_complete"
      · rw [if_pos h3]
      · rw [if_neg h3]
        by_cases h4 : ev.type = "auto_recharge_failed"
        · rw [if_pos h4]
        · rw [if_neg h4]
          by_cases h5 : ev.type = "ping"
          · rw [if_pos h5]
          · rw [if_neg h5]
